import Mathlib

/-
Verification development for the esp_ng network connectivity manager
(src/components/net_mgr/net_mgr.c), shallowly embedded in Lean 4.

Driver calls (esp_wifi_*, esp_timer_*, esp_event_*) are modelled as an
explicit effect trace; results of driver calls and of asynchronous waits
are supplied by environment records, one field per call site.  Machine
integers: esp_err_t is Int with the ESP-IDF constants; the uint64_t
backoff arithmetic is Nat reduced mod 2^64 where the C code can wrap.
-/

/-- ESP-IDF error codes are a 32-bit signed integer type; we embed the
constants used by net_mgr.c as integers. -/
abbrev EspErr := Int

def ESP_OK : EspErr := 0

def ESP_FAIL : EspErr := -1

def ESP_ERR_NO_MEM : EspErr := 257

def ESP_ERR_INVALID_ARG : EspErr := 258

def ESP_ERR_INVALID_STATE : EspErr := 259

def ESP_ERR_TIMEOUT : EspErr := 263

def ESP_ERR_NVS_NOT_FOUND : EspErr := 4354

def ESP_ERR_NVS_INVALID_LENGTH : EspErr := 4357

/-- Wi-Fi disconnect reason codes from the ESP-IDF driver header, as used
by net_mgr.c (the leading digit of 4WAY is spelled out for Lean). -/
def WIFI_REASON_UNSPECIFIED : Nat := 1

def WIFI_REASON_AUTH_EXPIRE : Nat := 2

def WIFI_REASON_FOURWAY_HANDSHAKE_TIMEOUT : Nat := 15

def WIFI_REASON_BEACON_TIMEOUT : Nat := 200

def WIFI_REASON_NO_AP_FOUND : Nat := 201

def WIFI_REASON_AUTH_FAIL : Nat := 202

def WIFI_REASON_HANDSHAKE_TIMEOUT : Nat := 204

/-- Reconnection parameters from net_mgr.c (lines 25-27). -/
def BACKOFF_BASE_MS : Nat := 1000

def BACKOFF_MAX_MS : Nat := 60000

def MAX_RETRY_BEFORE_RESTART : Nat := 20

/-- Event-group bits for credential staging (net_mgr.c lines 36-39). -/
def CRED_STAGING_CONNECTED_BIT : Nat := 1

def CRED_STAGING_GOT_IP_BIT : Nat := 2

def CRED_STAGING_FAILED_BIT : Nat := 4

def CRED_STAGING_SUCCESS_BITS : Nat := 3

/-- Modulus of the C uint64_t arithmetic used in schedule_reconnect. -/
def U64_MOD : Nat := 2 ^ 64

/-- strlcpy into a destination buffer of n bytes keeps at most n-1
characters and NUL-terminates; modelled on Lean strings as take (n-1). -/
def strlcpy_into (n : Nat) (s : String) : String := s.take (n - 1)

/-- The net_mgr_cred_result_t enumeration (net_mgr.h lines 14-22). -/
inductive CredResult
  | ok
  | authFailed
  | apNotFound
  | timeout
  | invalidInput
  | busy
  | unknownError
deriving DecidableEq

/-- Identities of the two event handlers registered by net_mgr.c. -/
inductive HandlerId
  | csm
  | staging
deriving DecidableEq

/-- Driver event identifiers relevant to net_mgr.c registrations. -/
inductive EventId
  | anyWifiEvent
  | staStart
  | staConnected
  | staDisconnected
  | staGotIp
deriving DecidableEq

/-- Observable actions performed against the driver, the timer service,
the event bus and persistent storage, in program order. -/
inductive Effect
  | setModeSta
  | wifiSetConfig (ssid pass : String)
  | wifiDisconnect
  | wifiConnect
  | wifiStop
  | wifiStart
  | delayMs (ms : Nat)
  | timerStop
  | timerArmOnce (us : Nat)
  | persistSet (key value : String)
  | postNetLost
  | postNetReady
  | regHandler (e : EventId) (h : HandlerId)
  | unregHandler (e : EventId) (h : HandlerId)
deriving DecidableEq

/-- Mutable module state of net_mgr.c: retry counter, connection flag,
staging flag and recorded fail reason, plus the persistent key/value
store behind config_mgr (an association list). -/
structure NetState where
  retryNum : Nat
  isConnected : Bool
  credStagingActive : Bool
  credStagingFailReason : Nat
  store : List (String × String)
deriving DecidableEq

/-- Lookup in the persistent store. -/
def storeGet (store : List (String × String)) (key : String) : Option String :=
  (store.find? (fun kv => kv.1 == key)).map (fun kv => kv.2)

/-- Update of the persistent store (newest binding shadows older ones). -/
def storeSet (store : List (String × String)) (key value : String) :
    List (String × String) :=
  (key, value) :: store.filter (fun kv => kv.1 != key)

/-- Model of config_mgr_get_string (config_mgr.c lines 267-290), a thin
wrapper around nvs_get_str into a caller buffer of out_len bytes: returns
ESP_OK and the value when the key exists and fits (value length plus NUL
at most out_len), ESP_ERR_NVS_INVALID_LENGTH when it does not fit, and
ESP_ERR_NVS_NOT_FOUND when absent; the buffer stays zeroed on failure. -/
def config_mgr_get_string (store : List (String × String)) (key : String)
    (out_len : Nat) : EspErr × String :=
  match storeGet store key with
  | some v =>
      if v.length + 1 > out_len then (ESP_ERR_NVS_INVALID_LENGTH, "")
      else (ESP_OK, v)
  | none => (ESP_ERR_NVS_NOT_FOUND, "")

/-- Backoff computation from schedule_reconnect (net_mgr.c lines 100-103):
a uint64_t left shift of BACKOFF_BASE_MS by the retry counter, which wraps
mod 2^64, then capped at BACKOFF_MAX_MS. -/
def backoff_ms_of (retry : Nat) : Nat :=
  let raw := (BACKOFF_BASE_MS <<< retry) % U64_MOD
  if raw > BACKOFF_MAX_MS then BACKOFF_MAX_MS else raw

/-- Jitter computation (net_mgr.c line 106): esp_random() % 1000. -/
def jitter_of (rand : Nat) : Nat := rand % 1000

/-- Total delay in milliseconds passed to the one-shot reconnect timer
(net_mgr.c lines 100-118). -/
def scheduled_delay_ms (retry : Nat) (rand : Nat) : Nat :=
  backoff_ms_of retry + jitter_of rand

/-- Environment for one run of reconnect_timer_callback: results of the
esp_wifi_stop, esp_wifi_start and esp_wifi_connect calls it may make. -/
structure TimerEnv where
  stopRet : EspErr
  startRet : EspErr
  connectRet : EspErr
deriving DecidableEq

/-- Model of reconnect_timer_callback (net_mgr.c lines 50-90): at or above
the retry ceiling, stop the driver, pause 1000 ms and start it again,
resetting the counter only if the start succeeded (a failed start
increments it instead); below the ceiling, issue a connect command and
increment the counter. Returns the new retry counter and the effects. -/
def reconnect_timer_callback (retry : Nat) (env : TimerEnv) :
    Nat × List Effect :=
  if retry ≥ MAX_RETRY_BEFORE_RESTART then
    if env.startRet ≠ ESP_OK then
      (retry + 1, [Effect.wifiStop, Effect.delayMs 1000, Effect.wifiStart])
    else
      (0, [Effect.wifiStop, Effect.delayMs 1000, Effect.wifiStart])
  else
    (retry + 1, [Effect.wifiConnect])

/-- Environment for one run of schedule_reconnect / wifi_event_handler:
the raw random value and the results of driver calls made there. -/
structure HandlerEnv where
  jitterRand : Nat
  timerStartRet : EspErr
  connectRet : EspErr
deriving DecidableEq

/-- Model of schedule_reconnect (net_mgr.c lines 96-124): stop any pending
timer, arm a one-shot timer for (backoff + jitter) ms (in microseconds);
if arming fails, fall back to an immediate connect. -/
def schedule_reconnect (retry : Nat) (env : HandlerEnv) : List Effect :=
  let delay := scheduled_delay_ms retry env.jitterRand
  if env.timerStartRet = ESP_OK then
    [Effect.timerStop, Effect.timerArmOnce (delay * 1000)]
  else
    [Effect.timerStop, Effect.timerArmOnce (delay * 1000), Effect.wifiConnect]

/-- Driver events delivered to the handlers, with the disconnect reason. -/
inductive WifiEvent
  | staStart
  | staConnected
  | staDisconnected (reason : Nat)
  | staGotIp
deriving DecidableEq

/-- Model of wifi_event_handler (net_mgr.c lines 131-166), the Connection
State Machine listener: on station start it unconditionally issues a
connect command; on disconnect it clears the connected flag, posts a
link-lost notification and schedules a backoff reconnect; on address
acquisition it stops the pending timer, resets the retry counter, sets
the connected flag and posts a link-ready notification. -/
def wifi_event_handler (st : NetState) (ev : WifiEvent) (env : HandlerEnv) :
    NetState × List Effect :=
  match ev with
  | WifiEvent.staStart => (st, [Effect.wifiConnect])
  | WifiEvent.staConnected => (st, [])
  | WifiEvent.staDisconnected _ =>
      ({ st with isConnected := false },
        Effect.postNetLost :: schedule_reconnect st.retryNum env)
  | WifiEvent.staGotIp =>
      ({ st with retryNum := 0, isConnected := true },
        [Effect.timerStop, Effect.postNetReady])

/-- Signals the staging listener raises on the staging event group. -/
inductive StagingSignal
  | connectedBit
  | gotIpBit
  | failedBit
deriving DecidableEq

/-- Model of cred_staging_event_handler (net_mgr.c lines 172-202): ignores
everything unless staging is active; otherwise raises the matching staging
bit, recording the disconnect reason on a disconnect. -/
def cred_staging_event_handler (st : NetState) (ev : WifiEvent) :
    NetState × List StagingSignal :=
  if !st.credStagingActive then (st, [])
  else
    match ev with
    | WifiEvent.staStart => (st, [])
    | WifiEvent.staConnected => (st, [StagingSignal.connectedBit])
    | WifiEvent.staGotIp => (st, [StagingSignal.gotIpBit])
    | WifiEvent.staDisconnected reason =>
        ({ st with credStagingFailReason := reason }, [StagingSignal.failedBit])

/-- Events for which the staging transaction registers its listener
(net_mgr.c lines 621-649): STA_CONNECTED, STA_GOT_IP, STA_DISCONNECTED. -/
def staging_handles (ev : WifiEvent) : Bool :=
  match ev with
  | WifiEvent.staStart => false
  | WifiEvent.staConnected => true
  | WifiEvent.staGotIp => true
  | WifiEvent.staDisconnected _ => true

/-- Event delivery while a staging transaction is active: the Connection
State Machine listener stays registered for every Wi-Fi event (it is
registered in net_mgr_start for ESP_EVENT_ANY_ID and never unregistered
during staging), and the staging listener additionally receives the
events it registered for.  Both run, in registration order. -/
def dispatch_during_staging (st : NetState) (ev : WifiEvent)
    (env : HandlerEnv) : NetState × List Effect × List StagingSignal :=
  let csmOut := wifi_event_handler st ev env
  let stagingOut :=
    if staging_handles ev then cred_staging_event_handler csmOut.1 ev
    else (csmOut.1, [])
  (stagingOut.1, csmOut.2, stagingOut.2)

/-- Environment for one run of net_mgr_start: allocation successes and
driver-call results, one field per call site in net_mgr.c lines 204-326. -/
structure StartEnv where
  eventGroupOk : Bool
  timerCreateRet : EspErr
  mutexOk : Bool
  netifOk : Bool
  wifiInitRet : EspErr
  regWifiRet : EspErr
  regIpRet : EspErr
  setModeRet : EspErr
  setConfigRet : EspErr
  wifiStartRet : EspErr
deriving DecidableEq

/-- Model of net_mgr_start (net_mgr.c lines 204-326): create resources,
set up the driver, register the Connection State Machine listener,
then load credentials from storage.  With no stored SSID the driver is
set to station mode and started without any credential configuration;
with a stored SSID the driver is configured with it (empty passphrase if
none stored) and started.  Returns the esp_err_t result and the effect
trace. -/
def net_mgr_start (store : List (String × String)) (env : StartEnv) :
    EspErr × List Effect :=
  if !env.eventGroupOk then (ESP_ERR_NO_MEM, [])
  else if env.timerCreateRet ≠ ESP_OK then (env.timerCreateRet, [])
  else if !env.mutexOk then (ESP_ERR_NO_MEM, [])
  else if !env.netifOk then (ESP_FAIL, [])
  else if env.wifiInitRet ≠ ESP_OK then (env.wifiInitRet, [])
  else if env.regWifiRet ≠ ESP_OK then
    (env.regWifiRet, [Effect.regHandler EventId.anyWifiEvent HandlerId.csm])
  else if env.regIpRet ≠ ESP_OK then
    (env.regIpRet,
      [Effect.regHandler EventId.anyWifiEvent HandlerId.csm,
       Effect.regHandler EventId.staGotIp HandlerId.csm])
  else
    let regs := [Effect.regHandler EventId.anyWifiEvent HandlerId.csm,
                 Effect.regHandler EventId.staGotIp HandlerId.csm]
    let got := config_mgr_get_string store "wifi/ssid" 32
    let ssid := got.2
    if got.1 ≠ ESP_OK ∨ ssid.length = 0 then
      if env.setModeRet = ESP_OK then
        (env.wifiStartRet, regs ++ [Effect.setModeSta, Effect.wifiStart])
      else
        (env.setModeRet, regs ++ [Effect.setModeSta])
    else
      let gotPass := config_mgr_get_string store "wifi/pass" 64
      let password := if gotPass.1 ≠ ESP_OK then "" else gotPass.2
      if env.setModeRet ≠ ESP_OK then
        (env.setModeRet, regs ++ [Effect.setModeSta])
      else if env.setConfigRet ≠ ESP_OK then
        (env.setConfigRet,
          regs ++ [Effect.setModeSta,
            Effect.wifiSetConfig (strlcpy_into 32 ssid) (strlcpy_into 64 password)])
      else
        (env.wifiStartRet,
          regs ++ [Effect.setModeSta,
            Effect.wifiSetConfig (strlcpy_into 32 ssid) (strlcpy_into 64 password),
            Effect.wifiStart])

/-- Interface address information reported by the driver. -/
structure IpInfo where
  ip : Nat
  netmask : Nat
  gw : Nat
deriving DecidableEq

/-- Environment for the netif-based status accessors: whether the
interface object exists, the esp_netif_get_ip_info result and the
reported address information. -/
structure NetifEnv where
  netifInit : Bool
  getIpInfoRet : EspErr
  ipInfo : IpInfo
deriving DecidableEq

/-- Model of net_mgr_is_ready (net_mgr.c lines 390-404). -/
def net_mgr_is_ready (env : NetifEnv) : Bool :=
  if !env.netifInit then false
  else if env.getIpInfoRet ≠ ESP_OK then false
  else env.ipInfo.ip ≠ 0

/-- Model of net_mgr_get_ip (net_mgr.c lines 406-431), returning only the
esp_err_t result (the formatted string is immaterial to the claims). -/
def net_mgr_get_ip (env : NetifEnv) (outNull : Bool) : EspErr :=
  if outNull then ESP_ERR_INVALID_ARG
  else if !env.netifInit then ESP_ERR_INVALID_STATE
  else if env.getIpInfoRet ≠ ESP_OK then env.getIpInfoRet
  else if env.ipInfo.ip = 0 then ESP_ERR_INVALID_STATE
  else ESP_OK

/-- Model of net_mgr_get_netmask (net_mgr.c lines 472-497). -/
def net_mgr_get_netmask (env : NetifEnv) (outNull : Bool) : EspErr :=
  if outNull then ESP_ERR_INVALID_ARG
  else if !env.netifInit then ESP_ERR_INVALID_STATE
  else if env.getIpInfoRet ≠ ESP_OK then env.getIpInfoRet
  else if env.ipInfo.netmask = 0 then ESP_ERR_INVALID_STATE
  else ESP_OK

/-- Model of net_mgr_get_gateway (net_mgr.c lines 499-524). -/
def net_mgr_get_gateway (env : NetifEnv) (outNull : Bool) : EspErr :=
  if outNull then ESP_ERR_INVALID_ARG
  else if !env.netifInit then ESP_ERR_INVALID_STATE
  else if env.getIpInfoRet ≠ ESP_OK then env.getIpInfoRet
  else if env.ipInfo.gw = 0 then ESP_ERR_INVALID_STATE
  else ESP_OK

/-- Environment for net_mgr_get_rssi: result of esp_wifi_sta_get_ap_info
and the reported signal strength. -/
structure RssiEnv where
  apInfoRet : EspErr
  rssi : Int
deriving DecidableEq

/-- Model of net_mgr_get_rssi (net_mgr.c lines 451-470): returns the int
status (0 success, -1 otherwise) and the value written through rssi_out. -/
def net_mgr_get_rssi (isConnected : Bool) (env : RssiEnv) (outNull : Bool) :
    Int × Option Int :=
  if outNull then (-1, none)
  else if !isConnected then (-1, none)
  else if env.apInfoRet = ESP_OK then (0, some env.rssi)
  else (-1, none)

/-- Failure classification from a disconnect reason, as in the switch of
net_mgr_test_and_commit_credentials (net_mgr.c lines 741-755). -/
def classify_fail_reason (reason : Nat) : CredResult :=
  if reason = WIFI_REASON_AUTH_FAIL ∨ reason = WIFI_REASON_AUTH_EXPIRE ∨
     reason = WIFI_REASON_FOURWAY_HANDSHAKE_TIMEOUT ∨
     reason = WIFI_REASON_HANDSHAKE_TIMEOUT then
    CredResult.authFailed
  else if reason = WIFI_REASON_NO_AP_FOUND ∨
          reason = WIFI_REASON_BEACON_TIMEOUT then
    CredResult.apNotFound
  else
    CredResult.unknownError

/-- Classification written from the words of the spec, for comparison:
authentication/handshake failures map to AuthFailed, AP-not-found and
beacon-timeout map to ApNotFound, anything else to UnknownError. -/
def spec_classify (reason : Nat) : CredResult :=
  if reason ∈ [WIFI_REASON_AUTH_FAIL, WIFI_REASON_AUTH_EXPIRE,
               WIFI_REASON_FOURWAY_HANDSHAKE_TIMEOUT,
               WIFI_REASON_HANDSHAKE_TIMEOUT] then
    CredResult.authFailed
  else if reason ∈ [WIFI_REASON_NO_AP_FOUND, WIFI_REASON_BEACON_TIMEOUT] then
    CredResult.apNotFound
  else
    CredResult.unknownError

/-- Environment for one run of net_mgr_test_and_commit_credentials:
allocation and driver-call results, plus the accumulated staging
event-group bits when the wait loop of step 7 exits and the disconnect
reason the staging listener recorded if the failed bit was raised. -/
structure StagingEnv where
  mutexInit : Bool
  mutexAcquired : Bool
  eventGroupOk : Bool
  regConnectedRet : EspErr
  regGotIpRet : EspErr
  regDisconnectedRet : EspErr
  setConfigNewRet : EspErr
  connectRet : EspErr
  waitBits : Nat
  observedReason : Nat
  setConfigOldRet : EspErr
deriving DecidableEq

/-- Outcome of one call to net_mgr_test_and_commit_credentials: the final
module state, the esp_err_t return value, the net_mgr_cred_result_t
value, how many times the function stored through result_out, and the
effect trace. -/
structure TxOut where
  state : NetState
  ret : EspErr
  result : CredResult
  resultWrites : Nat
  effects : List Effect
deriving DecidableEq

/-- The cleanup label of net_mgr_test_and_commit_credentials (lines
807-812): zero the password buffer, release the staging mutex, store the
result through result_out and return. -/
def tx_cleanup (st : NetState) (result : CredResult) (ret : EspErr)
    (effs : List Effect) : TxOut :=
  { state := st, ret := ret, result := result, resultWrites := 1,
    effects := effs }

/-- The cleanup_staging label (lines 804-805): clear the staging-active
flag, then fall through to cleanup. -/
def tx_cleanup_staging (st : NetState) (result : CredResult) (ret : EspErr)
    (effs : List Effect) : TxOut :=
  tx_cleanup { st with credStagingActive := false } result ret effs

/-- The cleanup_handlers label (lines 795-802): unregister the three
staging event handlers, then fall through to cleanup_staging. -/
def tx_cleanup_handlers (st : NetState) (result : CredResult) (ret : EspErr)
    (effs : List Effect) : TxOut :=
  tx_cleanup_staging st result ret
    (effs ++ [Effect.unregHandler EventId.staConnected HandlerId.staging,
              Effect.unregHandler EventId.staGotIp HandlerId.staging,
              Effect.unregHandler EventId.staDisconnected HandlerId.staging])

/-- The cleanup_rollback label (lines 771-793): reapply the previously
active credentials to the driver (through the 33- and 65-byte stack
buffers and the strlcpy into the driver config), disconnect, pause 500 ms
and reconnect, then fall through to cleanup_handlers. -/
def tx_cleanup_rollback (st : NetState) (oldSsid oldPass : String)
    (result : CredResult) (ret : EspErr) (effs : List Effect) : TxOut :=
  tx_cleanup_handlers st result ret
    (effs ++ [Effect.wifiSetConfig (strlcpy_into 32 oldSsid)
                (strlcpy_into 64 oldPass),
              Effect.wifiDisconnect, Effect.delayMs 500, Effect.wifiConnect])

/-- Body of net_mgr_test_and_commit_credentials after the NULL-pointer
check (net_mgr.c lines 560-813), for a non-NULL result_out: validate
lengths, take the staging guard, capture the current credentials for
rollback, install the staging listener, apply the candidate credentials
to the driver (RAM only), disconnect and connect, wait for the staging
bits, then either commit the candidate credentials to storage (both
success bits) or classify the recorded disconnect reason (failed bit) or
report a timeout, rolling back the driver configuration on every failure
path. -/
def tx_main (st : NetState) (s p : String) (env : StagingEnv) : TxOut :=
  if s.length = 0 ∨ s.length > 32 then
    { state := st, ret := ESP_ERR_INVALID_ARG, result := CredResult.invalidInput,
      resultWrites := 1, effects := [] }
  else if p.length > 64 then
    { state := st, ret := ESP_ERR_INVALID_ARG, result := CredResult.invalidInput,
      resultWrites := 1, effects := [] }
  else if !env.mutexInit then
    { state := st, ret := ESP_ERR_INVALID_STATE, result := CredResult.unknownError,
      resultWrites := 1, effects := [] }
  else if !env.mutexAcquired then
    { state := st, ret := ESP_ERR_INVALID_STATE, result := CredResult.busy,
      resultWrites := 1, effects := [] }
  else
    let gotOld := config_mgr_get_string st.store "wifi/ssid" 33
    let oldSsid := gotOld.2
    if gotOld.1 ≠ ESP_OK ∨ oldSsid.length = 0 then
      tx_cleanup st CredResult.unknownError ESP_ERR_INVALID_STATE []
    else
      let oldPass := (config_mgr_get_string st.store "wifi/pass" 65).2
      if !env.eventGroupOk then
        tx_cleanup st CredResult.unknownError ESP_ERR_NO_MEM []
      else
        let st1 := { st with credStagingFailReason := WIFI_REASON_UNSPECIFIED,
                             credStagingActive := true }
        if env.regConnectedRet ≠ ESP_OK then
          tx_cleanup_staging st1 CredResult.unknownError env.regConnectedRet
            [Effect.regHandler EventId.staConnected HandlerId.staging]
        else if env.regGotIpRet ≠ ESP_OK then
          tx_cleanup_staging st1 CredResult.unknownError env.regGotIpRet
            [Effect.regHandler EventId.staConnected HandlerId.staging,
             Effect.regHandler EventId.staGotIp HandlerId.staging,
             Effect.unregHandler EventId.staConnected HandlerId.staging]
        else if env.regDisconnectedRet ≠ ESP_OK then
          tx_cleanup_staging st1 CredResult.unknownError env.regDisconnectedRet
            [Effect.regHandler EventId.staConnected HandlerId.staging,
             Effect.regHandler EventId.staGotIp HandlerId.staging,
             Effect.regHandler EventId.staDisconnected HandlerId.staging,
             Effect.unregHandler EventId.staConnected HandlerId.staging,
             Effect.unregHandler EventId.staGotIp HandlerId.staging]
        else
          let effs1 :=
            [Effect.regHandler EventId.staConnected HandlerId.staging,
             Effect.regHandler EventId.staGotIp HandlerId.staging,
             Effect.regHandler EventId.staDisconnected HandlerId.staging,
             Effect.wifiSetConfig (strlcpy_into 32 s) (strlcpy_into 64 p)]
          if env.setConfigNewRet ≠ ESP_OK then
            tx_cleanup_handlers st1 CredResult.unknownError ESP_FAIL effs1
          else
            let effs2 := effs1 ++
              [Effect.wifiDisconnect, Effect.delayMs 500, Effect.wifiConnect]
            if env.connectRet ≠ ESP_OK then
              tx_cleanup_rollback st1 oldSsid oldPass CredResult.unknownError
                env.connectRet effs2
            else
              let bits := env.waitBits
              let st2 :=
                if bits &&& CRED_STAGING_FAILED_BIT ≠ 0 then
                  { st1 with credStagingFailReason := env.observedReason }
                else st1
              if bits &&& CRED_STAGING_SUCCESS_BITS = CRED_STAGING_SUCCESS_BITS then
                let st3 := { st2 with
                  store := storeSet (storeSet st2.store "wifi/ssid" s) "wifi/pass" p }
                tx_cleanup_handlers st3 CredResult.ok ESP_OK
                  (effs2 ++ [Effect.persistSet "wifi/ssid" s,
                             Effect.persistSet "wifi/pass" p])
              else if bits &&& CRED_STAGING_FAILED_BIT ≠ 0 then
                tx_cleanup_rollback st2 oldSsid oldPass
                  (classify_fail_reason st2.credStagingFailReason) ESP_FAIL effs2
              else
                tx_cleanup_rollback st2 oldSsid oldPass CredResult.timeout
                  ESP_ERR_TIMEOUT effs2

/-- Model of net_mgr_test_and_commit_credentials (net_mgr.c lines
547-813).  The ssid and pass parameters are NULL-able C strings (none is
NULL); resultOutNull models a NULL result_out pointer, in which case no
outcome is ever stored.  The timeout only bounds the wait of step 7,
whose observed outcome the environment supplies as waitBits, so it does
not appear as a separate parameter of the model. -/
def net_mgr_test_and_commit_credentials (st : NetState)
    (ssid pass : Option String) (resultOutNull : Bool) (env : StagingEnv) :
    TxOut :=
  match ssid, pass with
  | some s, some p =>
      if resultOutNull then
        { state := st, ret := ESP_ERR_INVALID_ARG,
          result := CredResult.invalidInput, resultWrites := 0, effects := [] }
      else
        tx_main st s p env
  | _, _ =>
      { state := st, ret := ESP_ERR_INVALID_ARG,
        result := CredResult.invalidInput,
        resultWrites := if resultOutNull then 0 else 1, effects := [] }


/-- Helper: below the wrap point the code computes exactly the capped
exponential of the spec. -/
theorem backoff_formula_below_61 :
    ∀ r : Nat, r < 61 →
      backoff_ms_of r = min (BACKOFF_BASE_MS * 2 ^ r) BACKOFF_MAX_MS := by
  decide

/-- C2: once RetryCounter has reached MAX_RETRY_BEFORE_RESTART = 20, a
scheduled tick performs a full driver restart (stop, 1000 ms pause,
start) and issues no connect command; a successful driver start resets
the counter to 0, while a failed start leaves the ceiling condition in
place by incrementing the counter once, so the next scheduled tick (any
driver results) again performs the restart. -/
theorem reconnect_tick_restart_behavior (retry : Nat) (env env2 : TimerEnv)
    (h : MAX_RETRY_BEFORE_RESTART ≤ retry) :
    (reconnect_timer_callback retry env).2 =
      [Effect.wifiStop, Effect.delayMs 1000, Effect.wifiStart] ∧
    Effect.wifiConnect ∉ (reconnect_timer_callback retry env).2 ∧
    (env.startRet = ESP_OK → (reconnect_timer_callback retry env).1 = 0) ∧
    (env.startRet ≠ ESP_OK →
      (reconnect_timer_callback retry env).1 = retry + 1 ∧
      MAX_RETRY_BEFORE_RESTART ≤ retry + 1 ∧
      (reconnect_timer_callback (retry + 1) env2).2 =
        [Effect.wifiStop, Effect.delayMs 1000, Effect.wifiStart]) := by
  have h2 : MAX_RETRY_BEFORE_RESTART ≤ retry + 1 := Nat.le_succ_of_le h
  by_cases hs : env.startRet = ESP_OK <;>
  by_cases hs2 : env2.startRet = ESP_OK <;>
    simp [reconnect_timer_callback, ge_iff_le, h, h2, hs, hs2]

/-- Witness for reconnect_tick_restart_behavior at retry 20 with a
failing driver start on the first tick. -/
theorem reconnect_tick_restart_behavior_witness :
    (reconnect_timer_callback 20 ⟨ESP_OK, ESP_FAIL, ESP_OK⟩).2 =
      [Effect.wifiStop, Effect.delayMs 1000, Effect.wifiStart] ∧
    Effect.wifiConnect ∉ (reconnect_timer_callback 20 ⟨ESP_OK, ESP_FAIL, ESP_OK⟩).2 ∧
    ((⟨ESP_OK, ESP_FAIL, ESP_OK⟩ : TimerEnv).startRet = ESP_OK →
      (reconnect_timer_callback 20 ⟨ESP_OK, ESP_FAIL, ESP_OK⟩).1 = 0) ∧
    ((⟨ESP_OK, ESP_FAIL, ESP_OK⟩ : TimerEnv).startRet ≠ ESP_OK →
      (reconnect_timer_callback 20 ⟨ESP_OK, ESP_FAIL, ESP_OK⟩).1 = 20 + 1 ∧
      MAX_RETRY_BEFORE_RESTART ≤ 20 + 1 ∧
      (reconnect_timer_callback (20 + 1) ⟨ESP_OK, ESP_OK, ESP_OK⟩).2 =
        [Effect.wifiStop, Effect.delayMs 1000, Effect.wifiStart]) :=
  reconnect_tick_restart_behavior 20 ⟨ESP_OK, ESP_FAIL, ESP_OK⟩
    ⟨ESP_OK, ESP_OK, ESP_OK⟩ (by decide)

/-- C4 (code bug): the uint64_t backoff shift in schedule_reconnect wraps
at RetryCounter 61, so the computed base delay there is 0 ms rather than
the 60000 ms cap the min-formula of the spec gives; at RetryCounter 60
the code still matches the formula, and with the wrap the base delay is
not non-decreasing as the counter grows. -/
theorem backoff_base_wraps_at_retry_61 :
    backoff_ms_of 60 = min (BACKOFF_BASE_MS * 2 ^ 60) BACKOFF_MAX_MS ∧
    backoff_ms_of 61 = 0 ∧
    min (BACKOFF_BASE_MS * 2 ^ 61) BACKOFF_MAX_MS = 60000 ∧
    scheduled_delay_ms 61 999 = 999 ∧
    backoff_ms_of 61 < backoff_ms_of 60 := by
  decide

/-- Concrete module state in the middle of a staging transaction, with
the previously working credentials persisted. -/
def staging_demo_state : NetState :=
  { retryNum := 0, isConnected := true, credStagingActive := true,
    credStagingFailReason := WIFI_REASON_UNSPECIFIED,
    store := [("wifi/ssid", "Home"), ("wifi/pass", "homepw")] }

/-- C3 counterexample: with a staging transaction active, a disconnect
event is not handled only by the staging listener — the Connection State
Machine listener also runs, posting a link-lost notification and arming
the backoff reconnect timer (1,000,000 us here), while the staging
listener raises the failed signal. -/
theorem staging_disconnect_reaches_csm_listener :
    (dispatch_during_staging staging_demo_state
        (WifiEvent.staDisconnected WIFI_REASON_AUTH_FAIL)
        ⟨0, ESP_OK, ESP_OK⟩).2.1 =
      [Effect.postNetLost, Effect.timerStop, Effect.timerArmOnce 1000000] ∧
    (dispatch_during_staging staging_demo_state
        (WifiEvent.staDisconnected WIFI_REASON_AUTH_FAIL)
        ⟨0, ESP_OK, ESP_OK⟩).2.1 ≠ [] ∧
    (dispatch_during_staging staging_demo_state
        (WifiEvent.staDisconnected WIFI_REASON_AUTH_FAIL)
        ⟨0, ESP_OK, ESP_OK⟩).2.2 = [StagingSignal.failedBit] := by
  decide

/-- C3 (amended): while a staging transaction is active, a disconnect
event is delivered to both listeners, since the transaction registers
its own listener in addition to the Connection State Machine listener
and the latter is never suppressed: the staging listener records the
reason and raises the failed signal, and the Connection State Machine
listener still posts a link-lost notification and arms the backoff
reconnect timer. -/
theorem staging_disconnect_handled_by_both_listeners
    (st : NetState) (reason : Nat) (env : HandlerEnv)
    (h : st.credStagingActive = true) :
    (dispatch_during_staging st (WifiEvent.staDisconnected reason) env).2.2 =
      [StagingSignal.failedBit] ∧
    (dispatch_during_staging st
        (WifiEvent.staDisconnected reason) env).1.credStagingFailReason =
      reason ∧
    Effect.postNetLost ∈
      (dispatch_during_staging st (WifiEvent.staDisconnected reason) env).2.1 ∧
    Effect.timerArmOnce (scheduled_delay_ms st.retryNum env.jitterRand * 1000) ∈
      (dispatch_during_staging st (WifiEvent.staDisconnected reason) env).2.1 := by
  by_cases ht : env.timerStartRet = ESP_OK <;>
    simp [dispatch_during_staging, wifi_event_handler,
          cred_staging_event_handler, staging_handles, schedule_reconnect,
          h, ht]

/-- Witness for staging_disconnect_handled_by_both_listeners on the
concrete mid-transaction state. -/
theorem staging_disconnect_handled_by_both_listeners_witness :
    (dispatch_during_staging staging_demo_state
        (WifiEvent.staDisconnected WIFI_REASON_NO_AP_FOUND)
        ⟨0, ESP_OK, ESP_OK⟩).2.2 = [StagingSignal.failedBit] ∧
    (dispatch_during_staging staging_demo_state
        (WifiEvent.staDisconnected WIFI_REASON_NO_AP_FOUND)
        ⟨0, ESP_OK, ESP_OK⟩).1.credStagingFailReason =
      WIFI_REASON_NO_AP_FOUND ∧
    Effect.postNetLost ∈
      (dispatch_during_staging staging_demo_state
        (WifiEvent.staDisconnected WIFI_REASON_NO_AP_FOUND)
        ⟨0, ESP_OK, ESP_OK⟩).2.1 ∧
    Effect.timerArmOnce
        (scheduled_delay_ms staging_demo_state.retryNum
          (HandlerEnv.mk 0 ESP_OK ESP_OK).jitterRand * 1000) ∈
      (dispatch_during_staging staging_demo_state
        (WifiEvent.staDisconnected WIFI_REASON_NO_AP_FOUND)
        ⟨0, ESP_OK, ESP_OK⟩).2.1 :=
  staging_disconnect_handled_by_both_listeners staging_demo_state
    WIFI_REASON_NO_AP_FOUND ⟨0, ESP_OK, ESP_OK⟩ (by decide)

/-- Environment for net_mgr_start in which every allocation and driver
call succeeds. -/
def start_env_ok : StartEnv :=
  { eventGroupOk := true, timerCreateRet := ESP_OK, mutexOk := true,
    netifOk := true, wifiInitRet := ESP_OK, regWifiRet := ESP_OK,
    regIpRet := ESP_OK, setModeRet := ESP_OK, setConfigRet := ESP_OK,
    wifiStartRet := ESP_OK }

/-- Module state right after a credential-less start. -/
def idle_start_state : NetState :=
  { retryNum := 0, isConnected := false, credStagingActive := false,
    credStagingFailReason := WIFI_REASON_UNSPECIFIED, store := [] }

/-- C5 counterexample: with no stored credentials, net_mgr_start itself
issues no connect command, but the driver start it performs raises the
station-start notification, and the registered Connection State Machine
listener then unconditionally issues a connect command — so a connect
attempt is issued after all. -/
theorem start_without_creds_still_issues_connect :
    Effect.wifiConnect ∉ (net_mgr_start [] start_env_ok).2 ∧
    Effect.wifiStart ∈ (net_mgr_start [] start_env_ok).2 ∧
    (wifi_event_handler idle_start_state WifiEvent.staStart
        ⟨0, ESP_OK, ESP_OK⟩).2 = [Effect.wifiConnect] := by
  decide

/-- C5 (amended): with no stored SSID, net_mgr_start returns ESP_OK after
registering the Connection State Machine listener, setting station mode
and starting the driver, without configuring credentials and without
itself issuing a connect command, and net_mgr_is_ready is false while no
address is assigned; however, the station-start notification handler
issues a connect command unconditionally, so the first driver start
still triggers a connect attempt. -/
theorem start_without_creds_idle_until_sta_start
    (store : List (String × String)) (env : StartEnv) (nenv : NetifEnv)
    (st : NetState) (henv : HandlerEnv)
    (hnc : storeGet store "wifi/ssid" = none)
    (h1 : env.eventGroupOk = true) (h2 : env.timerCreateRet = ESP_OK)
    (h3 : env.mutexOk = true) (h4 : env.netifOk = true)
    (h5 : env.wifiInitRet = ESP_OK) (h6 : env.regWifiRet = ESP_OK)
    (h7 : env.regIpRet = ESP_OK) (h8 : env.setModeRet = ESP_OK)
    (h9 : env.wifiStartRet = ESP_OK)
    (hip : nenv.ipInfo.ip = 0) :
    (net_mgr_start store env).1 = ESP_OK ∧
    (net_mgr_start store env).2 =
      [Effect.regHandler EventId.anyWifiEvent HandlerId.csm,
       Effect.regHandler EventId.staGotIp HandlerId.csm,
       Effect.setModeSta, Effect.wifiStart] ∧
    Effect.wifiConnect ∉ (net_mgr_start store env).2 ∧
    (∀ a b : String, Effect.wifiSetConfig a b ∉ (net_mgr_start store env).2) ∧
    net_mgr_is_ready nenv = false ∧
    (wifi_event_handler st WifiEvent.staStart henv).2 =
      [Effect.wifiConnect] := by
  constructor
  · simp [net_mgr_start, config_mgr_get_string, hnc, h1, h2, h3, h4, h5,
          h6, h7, h8, h9]
  constructor
  · simp [net_mgr_start, config_mgr_get_string, hnc, h1, h2, h3, h4, h5,
          h6, h7, h8, h9]
  constructor
  · simp [net_mgr_start, config_mgr_get_string, hnc, h1, h2, h3, h4, h5,
          h6, h7, h8, h9]
  constructor
  · intro a b
    simp [net_mgr_start, config_mgr_get_string, hnc, h1, h2, h3, h4, h5,
          h6, h7, h8, h9]
  constructor
  · by_cases hn : nenv.netifInit = true <;>
    by_cases hr : nenv.getIpInfoRet = ESP_OK <;>
      simp [net_mgr_is_ready, hn, hr, hip]
  · simp [wifi_event_handler]

/-- Witness for start_without_creds_idle_until_sta_start on the empty
store with an all-success environment and a zero address report. -/
theorem start_without_creds_idle_until_sta_start_witness :
    (net_mgr_start [] start_env_ok).1 = ESP_OK ∧
    (net_mgr_start [] start_env_ok).2 =
      [Effect.regHandler EventId.anyWifiEvent HandlerId.csm,
       Effect.regHandler EventId.staGotIp HandlerId.csm,
       Effect.setModeSta, Effect.wifiStart] ∧
    Effect.wifiConnect ∉ (net_mgr_start [] start_env_ok).2 ∧
    (∀ a b : String, Effect.wifiSetConfig a b ∉ (net_mgr_start [] start_env_ok).2) ∧
    net_mgr_is_ready ⟨true, ESP_OK, ⟨0, 0, 0⟩⟩ = false ∧
    (wifi_event_handler idle_start_state WifiEvent.staStart
        ⟨0, ESP_OK, ESP_OK⟩).2 = [Effect.wifiConnect] :=
  start_without_creds_idle_until_sta_start [] start_env_ok
    ⟨true, ESP_OK, ⟨0, 0, 0⟩⟩ idle_start_state ⟨0, ESP_OK, ESP_OK⟩
    (by decide) rfl rfl rfl rfl rfl rfl rfl rfl rfl rfl

/-- C9 counterexample: the signal-strength accessor returns the same
output, status -1 with nothing stored, both when polled before the link
is connected (driver query would succeed) and when the driver query
itself fails while connected — so a caller cannot distinguish the two. -/
theorem rssi_unavailable_equals_driver_error :
    net_mgr_get_rssi false ⟨ESP_OK, -40⟩ false =
      net_mgr_get_rssi true ⟨ESP_FAIL, -40⟩ false ∧
    net_mgr_get_rssi false ⟨ESP_OK, -40⟩ false = (-1, none) := by
  decide

/-- C9 (amended): the address, netmask and gateway accessors report "not
yet available" as ESP_ERR_INVALID_STATE and propagate the driver error
code unchanged on a driver failure, so those two conditions are
distinguishable whenever the driver code differs from
ESP_ERR_INVALID_STATE; the signal-strength accessor however returns -1
both before the link is connected and on a driver failure, making those
two cases indistinguishable. -/
theorem status_queries_distinguishability
    (envA envE : NetifEnv) (e : EspErr) (renvOk renvF : RssiEnv)
    (hA1 : envA.netifInit = true) (hA2 : envA.getIpInfoRet = ESP_OK)
    (hAip : envA.ipInfo.ip = 0) (hAnm : envA.ipInfo.netmask = 0)
    (hAgw : envA.ipInfo.gw = 0)
    (hE1 : envE.netifInit = true) (hE2 : envE.getIpInfoRet = e)
    (he : e ≠ ESP_OK)
    (hrOk : renvOk.apInfoRet = ESP_OK) (hrF : renvF.apInfoRet ≠ ESP_OK) :
    net_mgr_get_ip envA false = ESP_ERR_INVALID_STATE ∧
    net_mgr_get_netmask envA false = ESP_ERR_INVALID_STATE ∧
    net_mgr_get_gateway envA false = ESP_ERR_INVALID_STATE ∧
    net_mgr_get_ip envE false = e ∧
    net_mgr_get_netmask envE false = e ∧
    net_mgr_get_gateway envE false = e ∧
    (e ≠ ESP_ERR_INVALID_STATE →
      net_mgr_get_ip envE false ≠ net_mgr_get_ip envA false) ∧
    net_mgr_get_rssi false renvOk false = net_mgr_get_rssi true renvF false := by
  refine ⟨?_, ?_, ?_, ?_, ?_, ?_, ?_, ?_⟩ <;>
    simp [net_mgr_get_ip, net_mgr_get_netmask, net_mgr_get_gateway,
          net_mgr_get_rssi, hA1, hA2, hAip, hAnm, hAgw, hE1, hE2, he, hrOk, hrF]

/-- Witness for status_queries_distinguishability with a zero address
report, a failing esp_netif_get_ip_info call returning ESP_FAIL, and a
failing esp_wifi_sta_get_ap_info call. -/
theorem status_queries_distinguishability_witness :
    net_mgr_get_ip ⟨true, ESP_OK, ⟨0, 0, 0⟩⟩ false = ESP_ERR_INVALID_STATE ∧
    net_mgr_get_netmask ⟨true, ESP_OK, ⟨0, 0, 0⟩⟩ false = ESP_ERR_INVALID_STATE ∧
    net_mgr_get_gateway ⟨true, ESP_OK, ⟨0, 0, 0⟩⟩ false = ESP_ERR_INVALID_STATE ∧
    net_mgr_get_ip ⟨true, ESP_FAIL, ⟨7, 7, 7⟩⟩ false = ESP_FAIL ∧
    net_mgr_get_netmask ⟨true, ESP_FAIL, ⟨7, 7, 7⟩⟩ false = ESP_FAIL ∧
    net_mgr_get_gateway ⟨true, ESP_FAIL, ⟨7, 7, 7⟩⟩ false = ESP_FAIL ∧
    (ESP_FAIL ≠ ESP_ERR_INVALID_STATE →
      net_mgr_get_ip ⟨true, ESP_FAIL, ⟨7, 7, 7⟩⟩ false ≠
        net_mgr_get_ip ⟨true, ESP_OK, ⟨0, 0, 0⟩⟩ false) ∧
    net_mgr_get_rssi false ⟨ESP_OK, -40⟩ false =
      net_mgr_get_rssi true ⟨ESP_FAIL, -40⟩ false :=
  status_queries_distinguishability ⟨true, ESP_OK, ⟨0, 0, 0⟩⟩
    ⟨true, ESP_FAIL, ⟨7, 7, 7⟩⟩ ESP_FAIL ⟨ESP_OK, -40⟩ ⟨ESP_FAIL, -40⟩
    rfl rfl rfl rfl rfl rfl rfl (by decide) rfl (by decide)

/-- C7: a call with an SSID length outside 1..32 or a passphrase longer
than 64 fails immediately: the result is InvalidInput, the return value
is ESP_ERR_INVALID_ARG, the module state (including persistent storage)
is untouched and the effect trace is empty — no driver interaction at
all. -/
theorem invalid_input_rejected_without_driver_interaction
    (st : NetState) (s p : String) (env : StagingEnv)
    (h : s.length = 0 ∨ s.length > 32 ∨ p.length > 64) :
    net_mgr_test_and_commit_credentials st (some s) (some p) false env =
      { state := st, ret := ESP_ERR_INVALID_ARG,
        result := CredResult.invalidInput, resultWrites := 1,
        effects := [] } := by
  by_cases h1 : s.length = 0 ∨ s.length > 32
  · simp [net_mgr_test_and_commit_credentials, tx_main, h1]
  · have h2 : p.length > 64 := by omega
    simp [net_mgr_test_and_commit_credentials, tx_main, h1, h2]

/-- Witness for invalid_input_rejected_without_driver_interaction on a
33-character SSID. -/
theorem invalid_input_rejected_without_driver_interaction_witness :
    net_mgr_test_and_commit_credentials staging_demo_state
        (some "AAAAAAAAAAAAAAAAAAAAAAAAAAAAAAAAA") (some "pw") false
        ⟨true, true, true, ESP_OK, ESP_OK, ESP_OK, ESP_OK, ESP_OK, 3, 1, ESP_OK⟩ =
      { state := staging_demo_state, ret := ESP_ERR_INVALID_ARG,
        result := CredResult.invalidInput, resultWrites := 1,
        effects := [] } :=
  invalid_input_rejected_without_driver_interaction staging_demo_state
    "AAAAAAAAAAAAAAAAAAAAAAAAAAAAAAAAA" "pw"
    ⟨true, true, true, ESP_OK, ESP_OK, ESP_OK, ESP_OK, ESP_OK, 3, 1, ESP_OK⟩
    (by decide)

/-- C8: a call made while the staging guard is held by another
transaction (the mutex take times out) fails immediately: the result is
Busy, the return value is ESP_ERR_INVALID_STATE, the module state —
including the staging flag, the recorded fail reason and persistent
storage of the in-flight transaction — is returned untouched, and the
effect trace is empty. -/
theorem busy_when_guard_held
    (st : NetState) (s p : String) (env : StagingEnv)
    (h1 : s.length ≠ 0) (h2 : s.length ≤ 32) (h3 : p.length ≤ 64)
    (hmi : env.mutexInit = true) (hma : env.mutexAcquired = false) :
    net_mgr_test_and_commit_credentials st (some s) (some p) false env =
      { state := st, ret := ESP_ERR_INVALID_STATE, result := CredResult.busy,
        resultWrites := 1, effects := [] } := by
  have hA : ¬(s.length = 0 ∨ s.length > 32) := by omega
  have hB : ¬(p.length > 64) := by omega
  simp [net_mgr_test_and_commit_credentials, tx_main, hA, hB, hmi, hma]

/-- Witness for busy_when_guard_held: a concurrent attempt against the
mid-transaction state with the guard unavailable. -/
theorem busy_when_guard_held_witness :
    net_mgr_test_and_commit_credentials staging_demo_state
        (some "Guest") (some "guestpw") false
        ⟨true, false, true, ESP_OK, ESP_OK, ESP_OK, ESP_OK, ESP_OK, 3, 1, ESP_OK⟩ =
      { state := staging_demo_state, ret := ESP_ERR_INVALID_STATE,
        result := CredResult.busy, resultWrites := 1, effects := [] } :=
  busy_when_guard_held staging_demo_state "Guest" "guestpw"
    ⟨true, false, true, ESP_OK, ESP_OK, ESP_OK, ESP_OK, ESP_OK, 3, 1, ESP_OK⟩
    (by decide) (by decide) (by decide) rfl rfl

/-- Helper: the switch in the code classifies a disconnect reason exactly
as the spec words it. -/
theorem classify_eq_spec (r : Nat) :
    classify_fail_reason r = spec_classify r := by
  simp [classify_fail_reason, spec_classify]

/-- C6: when the staging transaction reaches its wait stage and ends with
a disconnect signal (failed bit raised, success bits incomplete), the
returned outcome is the classification of the recorded disconnect
reason: authentication/handshake reasons give AuthFailed, AP-not-found
and beacon-timeout give ApNotFound, anything else gives UnknownError;
the esp_err_t return value is ESP_FAIL. -/
theorem staging_disconnect_outcome_classification
    (st : NetState) (s p oldS : String) (env : StagingEnv)
    (h1 : s.length ≠ 0) (h2 : s.length ≤ 32) (h3 : p.length ≤ 64)
    (hmi : env.mutexInit = true) (hma : env.mutexAcquired = true)
    (hold : storeGet st.store "wifi/ssid" = some oldS)
    (hfit : oldS.length + 1 ≤ 33) (hlen : oldS.length ≠ 0)
    (heg : env.eventGroupOk = true)
    (hr1 : env.regConnectedRet = ESP_OK) (hr2 : env.regGotIpRet = ESP_OK)
    (hr3 : env.regDisconnectedRet = ESP_OK)
    (hsc : env.setConfigNewRet = ESP_OK) (hcn : env.connectRet = ESP_OK)
    (hnb : env.waitBits &&& CRED_STAGING_SUCCESS_BITS ≠ CRED_STAGING_SUCCESS_BITS)
    (hfb : env.waitBits &&& CRED_STAGING_FAILED_BIT ≠ 0) :
    (net_mgr_test_and_commit_credentials st (some s) (some p) false env).result =
      spec_classify env.observedReason ∧
    (net_mgr_test_and_commit_credentials st (some s) (some p) false env).ret =
      ESP_FAIL := by
  have hA : ¬(s.length = 0 ∨ s.length > 32) := by omega
  have hB : ¬(p.length > 64) := by omega
  have hC : ¬(oldS.length + 1 > 33) := by omega
  simp [net_mgr_test_and_commit_credentials, tx_main, config_mgr_get_string,
        hold, hA, hB, hmi, hma, heg, hr1, hr2, hr3, hsc, hcn, hnb, hfb, hC,
        hlen, tx_cleanup_rollback, tx_cleanup_handlers, tx_cleanup_staging,
        tx_cleanup, classify_eq_spec]

/-- Witness for staging_disconnect_outcome_classification: wrong
passphrase for SSID Guest, disconnect reason WIFI_REASON_AUTH_FAIL. -/
theorem staging_disconnect_outcome_classification_witness :
    (net_mgr_test_and_commit_credentials staging_demo_state
        (some "Guest") (some "wrongpw") false
        ⟨true, true, true, ESP_OK, ESP_OK, ESP_OK, ESP_OK, ESP_OK, 4,
         WIFI_REASON_AUTH_FAIL, ESP_OK⟩).result =
      spec_classify WIFI_REASON_AUTH_FAIL ∧
    (net_mgr_test_and_commit_credentials staging_demo_state
        (some "Guest") (some "wrongpw") false
        ⟨true, true, true, ESP_OK, ESP_OK, ESP_OK, ESP_OK, ESP_OK, 4,
         WIFI_REASON_AUTH_FAIL, ESP_OK⟩).ret = ESP_FAIL :=
  staging_disconnect_outcome_classification staging_demo_state
    "Guest" "wrongpw" "Home"
    ⟨true, true, true, ESP_OK, ESP_OK, ESP_OK, ESP_OK, ESP_OK, 4,
     WIFI_REASON_AUTH_FAIL, ESP_OK⟩
    (by decide) (by decide) (by decide) rfl rfl (by decide) (by decide)
    (by decide) rfl rfl rfl rfl rfl rfl (by decide) (by decide)

/-- Helper: the disconnect-reason classification never yields the success
outcome. -/
theorem classify_ne_ok (r : Nat) :
    classify_fail_reason r ≠ CredResult.ok := by
  unfold classify_fail_reason
  split_ifs <;> simp

/-- C10: with a non-NULL result_out, every path of the function stores
exactly one outcome through result_out, and the esp_err_t return value
is ESP_OK exactly when the stored outcome is NET_MGR_CRED_OK. -/
theorem result_out_written_once_iff_ok
    (st : NetState) (ssid pass : Option String) (env : StagingEnv) :
    (net_mgr_test_and_commit_credentials st ssid pass false env).resultWrites
      = 1 ∧
    ((net_mgr_test_and_commit_credentials st ssid pass false env).ret = ESP_OK ↔
     (net_mgr_test_and_commit_credentials st ssid pass false env).result =
       CredResult.ok) := by
  rcases ssid with _ | s
  · rcases pass with _ | p <;>
      exact ⟨rfl, by
        simp [net_mgr_test_and_commit_credentials, ESP_OK, ESP_ERR_INVALID_ARG]⟩
  rcases pass with _ | p
  · exact ⟨rfl, by
      simp [net_mgr_test_and_commit_credentials, ESP_OK, ESP_ERR_INVALID_ARG]⟩
  have E : net_mgr_test_and_commit_credentials st (some s) (some p) false env
      = tx_main st s p env := by
    simp [net_mgr_test_and_commit_credentials]
  rw [E]
  unfold tx_main tx_cleanup_rollback tx_cleanup_handlers tx_cleanup_staging
    tx_cleanup
  by_cases c1 : s.length = 0 ∨ s.length > 32
  · rw [if_pos c1]; exact ⟨rfl, by simp [ESP_OK, ESP_FAIL, ESP_ERR_INVALID_ARG, ESP_ERR_INVALID_STATE, ESP_ERR_NO_MEM, ESP_ERR_TIMEOUT]⟩
  rw [if_neg c1]
  by_cases c2 : p.length > 64
  · rw [if_pos c2]; exact ⟨rfl, by simp [ESP_OK, ESP_FAIL, ESP_ERR_INVALID_ARG, ESP_ERR_INVALID_STATE, ESP_ERR_NO_MEM, ESP_ERR_TIMEOUT]⟩
  rw [if_neg c2]
  by_cases c3 : (!env.mutexInit) = true
  · rw [if_pos c3]; exact ⟨rfl, by simp [ESP_OK, ESP_FAIL, ESP_ERR_INVALID_ARG, ESP_ERR_INVALID_STATE, ESP_ERR_NO_MEM, ESP_ERR_TIMEOUT]⟩
  rw [if_neg c3]
  by_cases c4 : (!env.mutexAcquired) = true
  · rw [if_pos c4]; exact ⟨rfl, by simp [ESP_OK, ESP_FAIL, ESP_ERR_INVALID_ARG, ESP_ERR_INVALID_STATE, ESP_ERR_NO_MEM, ESP_ERR_TIMEOUT]⟩
  rw [if_neg c4]
  by_cases c5 : (config_mgr_get_string st.store "wifi/ssid" 33).1 ≠ ESP_OK ∨
      (config_mgr_get_string st.store "wifi/ssid" 33).2.length = 0
  · rw [if_pos c5]; exact ⟨rfl, by simp [ESP_OK, ESP_FAIL, ESP_ERR_INVALID_ARG, ESP_ERR_INVALID_STATE, ESP_ERR_NO_MEM, ESP_ERR_TIMEOUT]⟩
  rw [if_neg c5]
  by_cases c6 : (!env.eventGroupOk) = true
  · rw [if_pos c6]; exact ⟨rfl, by simp [ESP_OK, ESP_FAIL, ESP_ERR_INVALID_ARG, ESP_ERR_INVALID_STATE, ESP_ERR_NO_MEM, ESP_ERR_TIMEOUT]⟩
  rw [if_neg c6]
  by_cases c7 : env.regConnectedRet ≠ ESP_OK
  · rw [if_pos c7]; exact ⟨rfl, by simp [c7]⟩
  rw [if_neg c7]
  by_cases c8 : env.regGotIpRet ≠ ESP_OK
  · rw [if_pos c8]; exact ⟨rfl, by simp [c8]⟩
  rw [if_neg c8]
  by_cases c9 : env.regDisconnectedRet ≠ ESP_OK
  · rw [if_pos c9]; exact ⟨rfl, by simp [c9]⟩
  rw [if_neg c9]
  by_cases c10 : env.setConfigNewRet ≠ ESP_OK
  · rw [if_pos c10]; exact ⟨rfl, by simp [ESP_OK, ESP_FAIL, ESP_ERR_INVALID_ARG, ESP_ERR_INVALID_STATE, ESP_ERR_NO_MEM, ESP_ERR_TIMEOUT]⟩
  rw [if_neg c10]
  by_cases c11 : env.connectRet ≠ ESP_OK
  · rw [if_pos c11]; exact ⟨rfl, by simp [c11]⟩
  rw [if_neg c11]
  by_cases c12 : env.waitBits &&& CRED_STAGING_SUCCESS_BITS =
      CRED_STAGING_SUCCESS_BITS
  · rw [if_pos c12]; exact ⟨rfl, by simp [ESP_OK, ESP_FAIL, ESP_ERR_INVALID_ARG, ESP_ERR_INVALID_STATE, ESP_ERR_NO_MEM, ESP_ERR_TIMEOUT]⟩
  rw [if_neg c12]
  by_cases c13 : env.waitBits &&& CRED_STAGING_FAILED_BIT ≠ 0
  · rw [if_pos c13, if_pos c13]
    refine ⟨rfl, ?_⟩
    simp [ESP_FAIL, ESP_OK, classify_ne_ok]
  · rw [if_neg c13, if_neg c13]
    exact ⟨rfl, by simp [ESP_OK, ESP_FAIL, ESP_ERR_INVALID_ARG, ESP_ERR_INVALID_STATE, ESP_ERR_NO_MEM, ESP_ERR_TIMEOUT]⟩

/-- Witness for result_out_written_once_iff_ok on the success run. -/
theorem result_out_written_once_iff_ok_witness :
    (net_mgr_test_and_commit_credentials staging_demo_state
        (some "Guest") (some "guestpw") false
        ⟨true, true, true, ESP_OK, ESP_OK, ESP_OK, ESP_OK, ESP_OK, 3, 1,
         ESP_OK⟩).resultWrites = 1 ∧
    ((net_mgr_test_and_commit_credentials staging_demo_state
        (some "Guest") (some "guestpw") false
        ⟨true, true, true, ESP_OK, ESP_OK, ESP_OK, ESP_OK, ESP_OK, 3, 1,
         ESP_OK⟩).ret = ESP_OK ↔
     (net_mgr_test_and_commit_credentials staging_demo_state
        (some "Guest") (some "guestpw") false
        ⟨true, true, true, ESP_OK, ESP_OK, ESP_OK, ESP_OK, ESP_OK, 3, 1,
         ESP_OK⟩).result = CredResult.ok) :=
  result_out_written_once_iff_ok staging_demo_state (some "Guest")
    (some "guestpw")
    ⟨true, true, true, ESP_OK, ESP_OK, ESP_OK, ESP_OK, ESP_OK, 3, 1, ESP_OK⟩

/-- Helper: after committing, looking up the SSID key finds the new
value. -/
theorem storeGet_after_commit_ssid (store : List (String × String))
    (s p : String) :
    storeGet (storeSet (storeSet store "wifi/ssid" s) "wifi/pass" p)
      "wifi/ssid" = some s := by
  simp [storeGet, storeSet, List.find?]

/-- Helper: after committing, looking up the passphrase key finds the new
value. -/
theorem storeGet_after_commit_pass (store : List (String × String))
    (s p : String) :
    storeGet (storeSet (storeSet store "wifi/ssid" s) "wifi/pass" p)
      "wifi/pass" = some p := by
  simp [storeGet, storeSet, List.find?]

/-- C1: for a call that passes validation, acquires the staging guard and
reaches the wait for connection signals (current credentials readable,
listener registration, config application and connect initiation all
succeed): if both the link-associated and address-acquired signals arrive
(both success bits), the candidate SSID and passphrase are persisted and
the result is Ok with ESP_OK; if a disconnect signal arrives instead
(failed bit), or no signal arrives before the timeout, persistent storage
is unmodified, the previously active credentials are reapplied to the
driver followed by a disconnect and a reconnect, and the classified
failure outcome (or Timeout) is returned with a non-ESP_OK code. -/
theorem tx_commit_or_rollback
    (st : NetState) (s p oldS oldP : String) (env : StagingEnv)
    (h1 : s.length ≠ 0) (h2 : s.length ≤ 32) (h3 : p.length ≤ 64)
    (hmi : env.mutexInit = true) (hma : env.mutexAcquired = true)
    (hold : storeGet st.store "wifi/ssid" = some oldS)
    (hfit : oldS.length + 1 ≤ 33) (hlen : oldS.length ≠ 0)
    (holdp : storeGet st.store "wifi/pass" = some oldP)
    (hfitp : oldP.length + 1 ≤ 65)
    (heg : env.eventGroupOk = true)
    (hr1 : env.regConnectedRet = ESP_OK) (hr2 : env.regGotIpRet = ESP_OK)
    (hr3 : env.regDisconnectedRet = ESP_OK)
    (hsc : env.setConfigNewRet = ESP_OK) (hcn : env.connectRet = ESP_OK) :
    (env.waitBits &&& CRED_STAGING_SUCCESS_BITS = CRED_STAGING_SUCCESS_BITS →
      (net_mgr_test_and_commit_credentials st (some s) (some p) false env).result
        = CredResult.ok ∧
      (net_mgr_test_and_commit_credentials st (some s) (some p) false env).ret
        = ESP_OK ∧
      storeGet (net_mgr_test_and_commit_credentials st (some s) (some p) false
        env).state.store "wifi/ssid" = some s ∧
      storeGet (net_mgr_test_and_commit_credentials st (some s) (some p) false
        env).state.store "wifi/pass" = some p ∧
      (net_mgr_test_and_commit_credentials st (some s) (some p) false env).effects
        = [Effect.regHandler EventId.staConnected HandlerId.staging,
           Effect.regHandler EventId.staGotIp HandlerId.staging,
           Effect.regHandler EventId.staDisconnected HandlerId.staging,
           Effect.wifiSetConfig (strlcpy_into 32 s) (strlcpy_into 64 p),
           Effect.wifiDisconnect, Effect.delayMs 500, Effect.wifiConnect,
           Effect.persistSet "wifi/ssid" s, Effect.persistSet "wifi/pass" p,
           Effect.unregHandler EventId.staConnected HandlerId.staging,
           Effect.unregHandler EventId.staGotIp HandlerId.staging,
           Effect.unregHandler EventId.staDisconnected HandlerId.staging]) ∧
    (env.waitBits &&& CRED_STAGING_SUCCESS_BITS ≠ CRED_STAGING_SUCCESS_BITS →
     env.waitBits &&& CRED_STAGING_FAILED_BIT ≠ 0 →
      (net_mgr_test_and_commit_credentials st (some s) (some p) false env).result
        = classify_fail_reason env.observedReason ∧
      (net_mgr_test_and_commit_credentials st (some s) (some p) false env).ret
        = ESP_FAIL ∧
      (net_mgr_test_and_commit_credentials st (some s) (some p) false
        env).state.store = st.store ∧
      (net_mgr_test_and_commit_credentials st (some s) (some p) false env).effects
        = [Effect.regHandler EventId.staConnected HandlerId.staging,
           Effect.regHandler EventId.staGotIp HandlerId.staging,
           Effect.regHandler EventId.staDisconnected HandlerId.staging,
           Effect.wifiSetConfig (strlcpy_into 32 s) (strlcpy_into 64 p),
           Effect.wifiDisconnect, Effect.delayMs 500, Effect.wifiConnect,
           Effect.wifiSetConfig (strlcpy_into 32 oldS) (strlcpy_into 64 oldP),
           Effect.wifiDisconnect, Effect.delayMs 500, Effect.wifiConnect,
           Effect.unregHandler EventId.staConnected HandlerId.staging,
           Effect.unregHandler EventId.staGotIp HandlerId.staging,
           Effect.unregHandler EventId.staDisconnected HandlerId.staging]) ∧
    (env.waitBits &&& CRED_STAGING_SUCCESS_BITS ≠ CRED_STAGING_SUCCESS_BITS →
     env.waitBits &&& CRED_STAGING_FAILED_BIT = 0 →
      (net_mgr_test_and_commit_credentials st (some s) (some p) false env).result
        = CredResult.timeout ∧
      (net_mgr_test_and_commit_credentials st (some s) (some p) false env).ret
        = ESP_ERR_TIMEOUT ∧
      (net_mgr_test_and_commit_credentials st (some s) (some p) false
        env).state.store = st.store ∧
      (net_mgr_test_and_commit_credentials st (some s) (some p) false env).effects
        = [Effect.regHandler EventId.staConnected HandlerId.staging,
           Effect.regHandler EventId.staGotIp HandlerId.staging,
           Effect.regHandler EventId.staDisconnected HandlerId.staging,
           Effect.wifiSetConfig (strlcpy_into 32 s) (strlcpy_into 64 p),
           Effect.wifiDisconnect, Effect.delayMs 500, Effect.wifiConnect,
           Effect.wifiSetConfig (strlcpy_into 32 oldS) (strlcpy_into 64 oldP),
           Effect.wifiDisconnect, Effect.delayMs 500, Effect.wifiConnect,
           Effect.unregHandler EventId.staConnected HandlerId.staging,
           Effect.unregHandler EventId.staGotIp HandlerId.staging,
           Effect.unregHandler EventId.staDisconnected HandlerId.staging]) := by
  have hA : ¬(s.length = 0 ∨ s.length > 32) := by omega
  have hB : ¬(p.length > 64) := by omega
  have hC : ¬(33 < oldS.length + 1) := by omega
  have hD : ¬(65 < oldP.length + 1) := by omega
  have hcfg1 : config_mgr_get_string st.store "wifi/ssid" 33 = (ESP_OK, oldS) := by
    simp [config_mgr_get_string, hold, hC]
  have hcfg2 : config_mgr_get_string st.store "wifi/pass" 65 = (ESP_OK, oldP) := by
    simp [config_mgr_get_string, holdp, hD]
  refine ⟨fun hb => ?_, fun hb hf => ?_, fun hb hf => ?_⟩
  · simp [net_mgr_test_and_commit_credentials, tx_main, hcfg1, hcfg2, hA, hB,
      hmi, hma, heg, hr1, hr2, hr3, hsc, hcn, hb, hlen,
      tx_cleanup_handlers, tx_cleanup_staging, tx_cleanup,
      storeGet_after_commit_ssid, storeGet_after_commit_pass]
  · simp [net_mgr_test_and_commit_credentials, tx_main, hcfg1, hcfg2, hA, hB,
      hmi, hma, heg, hr1, hr2, hr3, hsc, hcn, hb, hf, hlen,
      tx_cleanup_rollback, tx_cleanup_handlers, tx_cleanup_staging, tx_cleanup]
  · simp [net_mgr_test_and_commit_credentials, tx_main, hcfg1, hcfg2, hA, hB,
      hmi, hma, heg, hr1, hr2, hr3, hsc, hcn, hb, hf, hlen,
      tx_cleanup_rollback, tx_cleanup_handlers, tx_cleanup_staging, tx_cleanup]

/-- Witness for tx_commit_or_rollback: a successful staging run against
the persisted Home network, testing the Guest credentials. -/
theorem tx_commit_or_rollback_witness :
    (net_mgr_test_and_commit_credentials staging_demo_state (some "Guest")
        (some "guestpw") false
        ⟨true, true, true, ESP_OK, ESP_OK, ESP_OK, ESP_OK, ESP_OK, 3, 1,
         ESP_OK⟩).result = CredResult.ok ∧
    (net_mgr_test_and_commit_credentials staging_demo_state (some "Guest")
        (some "guestpw") false
        ⟨true, true, true, ESP_OK, ESP_OK, ESP_OK, ESP_OK, ESP_OK, 3, 1,
         ESP_OK⟩).ret = ESP_OK ∧
    storeGet (net_mgr_test_and_commit_credentials staging_demo_state
        (some "Guest") (some "guestpw") false
        ⟨true, true, true, ESP_OK, ESP_OK, ESP_OK, ESP_OK, ESP_OK, 3, 1,
         ESP_OK⟩).state.store "wifi/ssid" = some "Guest" ∧
    storeGet (net_mgr_test_and_commit_credentials staging_demo_state
        (some "Guest") (some "guestpw") false
        ⟨true, true, true, ESP_OK, ESP_OK, ESP_OK, ESP_OK, ESP_OK, 3, 1,
         ESP_OK⟩).state.store "wifi/pass" = some "guestpw" ∧
    (net_mgr_test_and_commit_credentials staging_demo_state (some "Guest")
        (some "guestpw") false
        ⟨true, true, true, ESP_OK, ESP_OK, ESP_OK, ESP_OK, ESP_OK, 3, 1,
         ESP_OK⟩).effects =
      [Effect.regHandler EventId.staConnected HandlerId.staging,
       Effect.regHandler EventId.staGotIp HandlerId.staging,
       Effect.regHandler EventId.staDisconnected HandlerId.staging,
       Effect.wifiSetConfig (strlcpy_into 32 "Guest") (strlcpy_into 64 "guestpw"),
       Effect.wifiDisconnect, Effect.delayMs 500, Effect.wifiConnect,
       Effect.persistSet "wifi/ssid" "Guest",
       Effect.persistSet "wifi/pass" "guestpw",
       Effect.unregHandler EventId.staConnected HandlerId.staging,
       Effect.unregHandler EventId.staGotIp HandlerId.staging,
       Effect.unregHandler EventId.staDisconnected HandlerId.staging] :=
  (tx_commit_or_rollback staging_demo_state "Guest" "guestpw" "Home" "homepw"
    ⟨true, true, true, ESP_OK, ESP_OK, ESP_OK, ESP_OK, ESP_OK, 3, 1, ESP_OK⟩
    (by decide) (by decide) (by decide) rfl rfl (by decide) (by decide)
    (by decide) (by decide) (by decide) rfl rfl rfl rfl rfl rfl).1 (by decide)
